import Mathlib

/-!
Verification of the rational-trigonometry core (`rat_trig.trigonom`).

The source is a small Python module of seven pure functions over a generic
numeric domain: `archimedes`, `cross`, `dot`, `quad`, `spread`, `spread_law`
and `triple_quad_formula`.  Vectors are passed as sequences and only indices
0 and 1 are read; division by zero is the sole error path of `spread` and
`spread_law`, modelled here with `Option` (`none` = ZeroDivisionError, and
for sequences also an out-of-range index).

Two layers are embedded:

* `RatTrig` — the formulas, generic over a commutative ring (a field with
  decidable equality where the source divides), exactly as written in the
  source; sequence arguments are `List α` read with `List.get?`.
* `PyDyn` — the same formulas over `PyNum`, a model of Python's dynamic
  numeric tower (`int` / `Fraction` / `float`) with Python's coercion rules:
  `int` arithmetic stays `int`, a `Fraction` operand promotes the result to
  `Fraction`, a `float` operand promotes the result to `float`, and true
  division `/` of two `int`s yields a `float`.  Float values are idealized
  as exact rationals: only the domain tag (exact vs floating) matters for
  the exactness claims settled against this layer.
-/

namespace RatTrig

/-- `archimedes(q_1, q_2, q_3)` from the source:
`temp = q_1 + q_2 - q_3; return 4 * q_1 * q_2 - temp * temp`. -/
def archimedes {α : Type} [CommRing α] (q_1 q_2 q_3 : α) : α :=
  let temp := q_1 + q_2 - q_3
  4 * q_1 * q_2 - temp * temp

/-- `cross(v_1, v_2)` from the source:
`return v_1[0] * v_2[1] - v_1[1] * v_2[0]`; an out-of-range index is `none`. -/
def cross {α : Type} [CommRing α] (v_1 v_2 : List α) : Option α := do
  let a ← v_1.get? 0
  let d ← v_2.get? 1
  let b ← v_1.get? 1
  let c ← v_2.get? 0
  pure (a * d - b * c)

/-- `dot(v_1, v_2)` from the source:
`return v_1[0] * v_2[0] + v_1[1] * v_2[1]`. -/
def dot {α : Type} [CommRing α] (v_1 v_2 : List α) : Option α := do
  let a ← v_1.get? 0
  let c ← v_2.get? 0
  let b ← v_1.get? 1
  let d ← v_2.get? 1
  pure (a * c + b * d)

/-- `quad(v)` from the source: `return v[0] * v[0] + v[1] * v[1]`. -/
def quad {α : Type} [CommRing α] (v : List α) : Option α := do
  let a ← v.get? 0
  let b ← v.get? 1
  pure (a * a + b * b)

/-- `spread(v_1, v_2)` from the source: computes `cross(v_1, v_2)`,
`quad(v_1)`, `quad(v_2)` and returns
`(cross_product * cross_product) / (quad_1 * quad_2)`;
dividing by zero raises, modelled as `none`. -/
def spread {α : Type} [Field α] [DecidableEq α] (v_1 v_2 : List α) :
    Option α := do
  let cross_product ← cross v_1 v_2
  let quad_1 ← quad v_1
  let quad_2 ← quad v_2
  if quad_1 * quad_2 = 0 then none
  else pure (cross_product * cross_product / (quad_1 * quad_2))

/-- `spread_law(q_1, q_2, q_3)` from the source:
`numerator = archimedes(q_1, q_2, q_3); denominator = 4 * q_1 * q_2;
return numerator / denominator`; dividing by zero is `none`. -/
def spread_law {α : Type} [Field α] [DecidableEq α] (q_1 q_2 q_3 : α) :
    Option α :=
  let numerator := archimedes q_1 q_2 q_3
  let denominator := 4 * q_1 * q_2
  if denominator = 0 then none else some (numerator / denominator)

/-- `triple_quad_formula(q_1, q_2, s_3)` from the source:
`return (q_1 + q_2) * (q_1 + q_2) - 4 * q_1 * q_2 * (1 - s_3)`. -/
def triple_quad_formula {α : Type} [CommRing α] (q_1 q_2 s_3 : α) : α :=
  (q_1 + q_2) * (q_1 + q_2) - 4 * q_1 * q_2 * (1 - s_3)

end RatTrig

/-- A Python numeric value as the source's duck-typed `Numeric` union:
an exact `int`, an exact `Fraction`, or a `float` (value idealized as an
exact rational; only the tag matters for exactness tracking). -/
inductive PyNum : Type where
  | pint : ℤ → PyNum
  | prat : ℚ → PyNum
  | pfloat : ℚ → PyNum
deriving DecidableEq

namespace PyDyn

open PyNum

/-- The numeric value carried by a `PyNum`. -/
def toRat : PyNum → ℚ
  | pint a => (a : ℚ)
  | prat q => q
  | pfloat x => x

/-- An element of an exact domain (`int` or `Fraction`), as opposed to a
floating-point approximation. -/
def isExact : PyNum → Bool
  | pfloat _ => false
  | _ => true

/-- Python `+` with the numeric tower's coercions: `int + int` is `int`,
a `float` operand makes the result `float`, otherwise a `Fraction` operand
makes the result `Fraction`. -/
def pyAdd : PyNum → PyNum → PyNum
  | pint a, pint b => pint (a + b)
  | pfloat x, y => pfloat (x + toRat y)
  | x, pfloat y => pfloat (toRat x + y)
  | x, y => prat (toRat x + toRat y)

/-- Python `-` with the numeric tower's coercions (same rules as `+`). -/
def pySub : PyNum → PyNum → PyNum
  | pint a, pint b => pint (a - b)
  | pfloat x, y => pfloat (x - toRat y)
  | x, pfloat y => pfloat (toRat x - y)
  | x, y => prat (toRat x - toRat y)

/-- Python `*` with the numeric tower's coercions (same rules as `+`). -/
def pyMul : PyNum → PyNum → PyNum
  | pint a, pint b => pint (a * b)
  | pfloat x, y => pfloat (x * toRat y)
  | x, pfloat y => pfloat (toRat x * y)
  | x, y => prat (toRat x * toRat y)

/-- Python true division `/`: `int / int` yields a `float` (this is the
key rule for the exactness claims), a `float` operand yields a `float`,
and a `Fraction` with an exact operand yields a `Fraction`.  Division by
zero raises ZeroDivisionError, modelled as `none`. -/
def pyDiv : PyNum → PyNum → Option PyNum
  | pint a, pint b =>
      if b = 0 then none else some (pfloat ((a : ℚ) / (b : ℚ)))
  | pfloat x, y =>
      if toRat y = 0 then none else some (pfloat (x / toRat y))
  | x, pfloat y =>
      if y = 0 then none else some (pfloat (toRat x / y))
  | x, y =>
      if toRat y = 0 then none else some (prat (toRat x / toRat y))

/-- `archimedes` of the source evaluated under Python's dynamic numerics;
the literal `4` is a Python `int`. -/
def archimedes (q_1 q_2 q_3 : PyNum) : PyNum :=
  let temp := pySub (pyAdd q_1 q_2) q_3
  pySub (pyMul (pyMul (pint 4) q_1) q_2) (pyMul temp temp)

/-- `cross` of the source under Python's dynamic numerics. -/
def cross (v_1 v_2 : List PyNum) : Option PyNum := do
  let a ← v_1.get? 0
  let d ← v_2.get? 1
  let b ← v_1.get? 1
  let c ← v_2.get? 0
  pure (pySub (pyMul a d) (pyMul b c))

/-- `dot` of the source under Python's dynamic numerics. -/
def dot (v_1 v_2 : List PyNum) : Option PyNum := do
  let a ← v_1.get? 0
  let c ← v_2.get? 0
  let b ← v_1.get? 1
  let d ← v_2.get? 1
  pure (pyAdd (pyMul a c) (pyMul b d))

/-- `quad` of the source under Python's dynamic numerics. -/
def quad (v : List PyNum) : Option PyNum := do
  let a ← v.get? 0
  let b ← v.get? 1
  pure (pyAdd (pyMul a a) (pyMul b b))

/-- `spread` of the source under Python's dynamic numerics. -/
def spread (v_1 v_2 : List PyNum) : Option PyNum := do
  let cross_product ← cross v_1 v_2
  let quad_1 ← quad v_1
  let quad_2 ← quad v_2
  pyDiv (pyMul cross_product cross_product) (pyMul quad_1 quad_2)

/-- `spread_law` of the source under Python's dynamic numerics;
the literal `4` is a Python `int`. -/
def spread_law (q_1 q_2 q_3 : PyNum) : Option PyNum :=
  let numerator := archimedes q_1 q_2 q_3
  let denominator := pyMul (pyMul (pint 4) q_1) q_2
  pyDiv numerator denominator

/-- `triple_quad_formula` of the source under Python's dynamic numerics;
the literals `4` and `1` are Python `int`s. -/
def triple_quad_formula (q_1 q_2 s_3 : PyNum) : PyNum :=
  pySub (pyMul (pyAdd q_1 q_2) (pyAdd q_1 q_2))
    (pyMul (pyMul (pyMul (pint 4) q_1) q_2) (pySub (pint 1) s_3))

end PyDyn

/-! ### Helper lemmas on the generic layer -/

theorem RatTrig.cross_cons {α : Type} [CommRing α] (a b c d : α)
    (t s : List α) :
    RatTrig.cross (a :: b :: t) (c :: d :: s) = some (a * d - b * c) := rfl

theorem RatTrig.dot_cons {α : Type} [CommRing α] (a b c d : α)
    (t s : List α) :
    RatTrig.dot (a :: b :: t) (c :: d :: s) = some (a * c + b * d) := rfl

theorem RatTrig.quad_cons {α : Type} [CommRing α] (a b : α) (t : List α) :
    RatTrig.quad (a :: b :: t) = some (a * a + b * b) := rfl

theorem RatTrig.spread_cons {α : Type} [Field α] [DecidableEq α]
    (a b c d : α) (t s : List α) :
    RatTrig.spread (a :: b :: t) (c :: d :: s) =
      if (a * a + b * b) * (c * c + d * d) = 0 then none
      else some ((a * d - b * c) * (a * d - b * c) /
        ((a * a + b * b) * (c * c + d * d))) := rfl

theorem RatTrig.exists_cons_cons_of_quad {α : Type} [CommRing α]
    (v : List α) (q : α) (h : RatTrig.quad v = some q) :
    ∃ a b t, v = a :: b :: t := by
  match v with
  | [] => simp [RatTrig.quad] at h
  | [a] => simp [RatTrig.quad] at h
  | a :: b :: t => exact ⟨a, b, t, rfl⟩

theorem RatTrig.exists_cons_cons_of_len {α : Type} (v : List α)
    (h : 2 ≤ v.length) : ∃ a b t, v = a :: b :: t := by
  match v with
  | [] => simp at h
  | [a] => simp at h
  | a :: b :: t => exact ⟨a, b, t, rfl⟩

theorem sq_sum_pos (a b : ℚ) (h : ¬(a = 0 ∧ b = 0)) : 0 < a * a + b * b := by
  rcases not_and_or.mp h with ha | hb
  · nlinarith [mul_self_nonneg b, (mul_self_pos).mpr ha]
  · nlinarith [mul_self_nonneg a, (mul_self_pos).mpr hb]

/-! ### Claim theorems -/

/-- Claim C5: `archimedes(q1, q2, q3)` equals `4·q1·q2 − (q1 + q2 − q3)²`,
is symmetric in `q1, q2`, is total (a plain ring expression, which the type
of `RatTrig.archimedes` shows), vanishes on the collinear triple
`(1, 4, 9)`, and `archimedes(1/2, 1/4, 1/6) = 23/144` exactly. -/
theorem archimedes_spec (q_1 q_2 q_3 : ℚ) :
    RatTrig.archimedes q_1 q_2 q_3 = 4 * q_1 * q_2 - (q_1 + q_2 - q_3) ^ 2 ∧
    RatTrig.archimedes q_1 q_2 q_3 = RatTrig.archimedes q_2 q_1 q_3 ∧
    RatTrig.archimedes (1 : ℚ) 4 9 = 0 ∧
    RatTrig.archimedes (1 / 2 : ℚ) (1 / 4) (1 / 6) = 23 / 144 := by
  refine ⟨by simp only [RatTrig.archimedes]; ring,
    by simp only [RatTrig.archimedes]; ring,
    by simp only [RatTrig.archimedes]; norm_num,
    by simp only [RatTrig.archimedes]; norm_num⟩

/-- Claim C4: `triple_quad_formula(q1, q2, s3)` equals
`(q1 + q2)² − 4·q1·q2·(1 − s3)`, is symmetric in `q1, q2`, reduces to
`(q1 − q2)²` at `s3 = 0` and to `(q1 + q2)²` at `s3 = 1`, is total (a plain
ring expression, which its type shows), and
`triple_quad_formula(5, 25, 4/125) = 416`. -/
theorem triple_quad_formula_spec (q_1 q_2 s_3 : ℚ) :
    RatTrig.triple_quad_formula q_1 q_2 s_3 =
      (q_1 + q_2) ^ 2 - 4 * q_1 * q_2 * (1 - s_3) ∧
    RatTrig.triple_quad_formula q_1 q_2 s_3 =
      RatTrig.triple_quad_formula q_2 q_1 s_3 ∧
    RatTrig.triple_quad_formula q_1 q_2 0 = (q_1 - q_2) ^ 2 ∧
    RatTrig.triple_quad_formula q_1 q_2 1 = (q_1 + q_2) ^ 2 ∧
    RatTrig.triple_quad_formula (5 : ℚ) 25 (4 / 125) = 416 := by
  refine ⟨by simp only [RatTrig.triple_quad_formula]; ring,
    by simp only [RatTrig.triple_quad_formula]; ring,
    by simp only [RatTrig.triple_quad_formula]; ring,
    by simp only [RatTrig.triple_quad_formula]; ring,
    by simp only [RatTrig.triple_quad_formula]; norm_num⟩

/-- Claim C9: `spread_law` and `triple_quad_formula` are not algebraic
inverses: at `q1 = 5`, `q2 = 25`, `q3 = 20` (with `q1·q2 ≠ 0`),
`spread_law` yields `4/5`, and `triple_quad_formula(5, 25, 4/5) = 800`,
which is neither `q3² = 400` nor `q3 = 20`. -/
theorem spread_law_tqf_not_inverse :
    (5 : ℚ) * 25 ≠ 0 ∧
    RatTrig.spread_law (5 : ℚ) 25 20 = some (4 / 5) ∧
    RatTrig.triple_quad_formula (5 : ℚ) 25 (4 / 5) = 800 ∧
    (800 : ℚ) ≠ 20 ^ 2 ∧ (800 : ℚ) ≠ 20 := by
  refine ⟨by norm_num, ?_, ?_, by norm_num, by norm_num⟩
  · simp only [RatTrig.spread_law, RatTrig.archimedes]
    norm_num
  · simp only [RatTrig.triple_quad_formula]
    norm_num

/-- Claim C2: for 2-vectors with both quadrances non-zero, `spread(v1, v2)`
equals `cross(v1,v2)² / (quad(v1)·quad(v2))`, and with exact rational
arithmetic `spread((1,2),(3,4)) = 4/125`. -/
theorem spread_eq_cross_sq_div_quads (a b c d cp q_1 q_2 : ℚ)
    (hcp : RatTrig.cross [a, b] [c, d] = some cp)
    (h1 : RatTrig.quad [a, b] = some q_1)
    (h2 : RatTrig.quad [c, d] = some q_2)
    (hq1 : q_1 ≠ 0) (hq2 : q_2 ≠ 0) :
    RatTrig.spread [a, b] [c, d] = some (cp ^ 2 / (q_1 * q_2)) ∧
    RatTrig.spread [(1 : ℚ), 2] [3, 4] = some (4 / 125) := by
  constructor
  · rw [RatTrig.cross_cons] at hcp
    rw [RatTrig.quad_cons] at h1 h2
    obtain rfl := Option.some.inj hcp
    obtain rfl := Option.some.inj h1
    obtain rfl := Option.some.inj h2
    rw [RatTrig.spread_cons, if_neg (mul_ne_zero hq1 hq2), sq]
  · rw [RatTrig.spread_cons]
    norm_num

/-- Witness for claim C2 at `v1 = (1,2)`, `v2 = (3,4)`:
`cross = -2`, `quad(v1) = 5`, `quad(v2) = 25`, `spread = 4/125`. -/
theorem spread_eq_cross_sq_div_quads_witness :
    RatTrig.spread [(1 : ℚ), 2] [3, 4] =
      some ((-2 : ℚ) ^ 2 / (5 * 25)) ∧
    RatTrig.spread [(1 : ℚ), 2] [3, 4] = some (4 / 125) :=
  spread_eq_cross_sq_div_quads 1 2 3 4 (-2) 5 25
    (by rw [RatTrig.cross_cons]; norm_num)
    (by rw [RatTrig.quad_cons]; norm_num)
    (by rw [RatTrig.quad_cons]; norm_num)
    (by norm_num) (by norm_num)

/-- Claim C3: for `q1·q2 ≠ 0`, `spread_law(q1, q2, q3)` equals
`archimedes(q1, q2, q3) / (4·q1·q2)`, equivalently
`1 − (q1+q2−q3)² / (4·q1·q2)`, and `spread_law(5, 25, 20) = 4/5`. -/
theorem spread_law_eq_archimedes_div (q_1 q_2 q_3 : ℚ)
    (h : q_1 * q_2 ≠ 0) :
    RatTrig.spread_law q_1 q_2 q_3 =
      some (RatTrig.archimedes q_1 q_2 q_3 / (4 * q_1 * q_2)) ∧
    RatTrig.spread_law q_1 q_2 q_3 =
      some (1 - (q_1 + q_2 - q_3) ^ 2 / (4 * q_1 * q_2)) ∧
    RatTrig.spread_law (5 : ℚ) 25 20 = some (4 / 5) := by
  have h4 : (4 : ℚ) * q_1 * q_2 ≠ 0 := by
    rw [mul_assoc]
    exact mul_ne_zero (by norm_num) h
  refine ⟨?_, ?_, ?_⟩
  · simp only [RatTrig.spread_law, if_neg h4]
  · simp only [RatTrig.spread_law, if_neg h4, RatTrig.archimedes,
      Option.some.injEq]
    field_simp
    ring
  · simp only [RatTrig.spread_law, RatTrig.archimedes]
    norm_num

/-- Witness for claim C3 at `q1 = 5`, `q2 = 25`, `q3 = 20`. -/
theorem spread_law_eq_archimedes_div_witness :
    RatTrig.spread_law (5 : ℚ) 25 20 =
      some (RatTrig.archimedes (5 : ℚ) 25 20 / (4 * 5 * 25)) ∧
    RatTrig.spread_law (5 : ℚ) 25 20 =
      some (1 - ((5 : ℚ) + 25 - 20) ^ 2 / (4 * 5 * 25)) ∧
    RatTrig.spread_law (5 : ℚ) 25 20 = some (4 / 5) :=
  spread_law_eq_archimedes_div 5 25 20 (by norm_num)

/-- Claim C6: division by zero is the only failure, exactly when a
denominator is zero — `spread` fails iff `quad(v1)·quad(v2) = 0` (so
`spread((0,0),(1,1))` fails), `spread_law` fails iff `q1·q2 = 0` for
arbitrary scalar inputs `p_1, p_2, p_3` (negative or otherwise
out-of-domain "quadrances" included; so `spread_law(0, 5, 3)` fails),
while `dot`, `cross` and `quad` always succeed on 2-vectors and
`archimedes` and `triple_quad_formula` are plain total ring expressions
(which their types show). -/
theorem division_by_zero_spec (a b c d q_1 q_2 p_1 p_2 p_3 : ℚ)
    (h1 : RatTrig.quad [a, b] = some q_1)
    (h2 : RatTrig.quad [c, d] = some q_2) :
    (RatTrig.spread [a, b] [c, d] = none ↔ q_1 * q_2 = 0) ∧
    (RatTrig.spread_law p_1 p_2 p_3 = none ↔ p_1 * p_2 = 0) ∧
    RatTrig.spread [(0 : ℚ), 0] [1, 1] = none ∧
    RatTrig.spread_law (0 : ℚ) 5 3 = none ∧
    (RatTrig.dot [a, b] [c, d]).isSome = true ∧
    (RatTrig.cross [a, b] [c, d]).isSome = true ∧
    (RatTrig.quad [a, b]).isSome = true := by
  rw [RatTrig.quad_cons] at h1 h2
  obtain rfl := Option.some.inj h1
  obtain rfl := Option.some.inj h2
  refine ⟨?_, ?_, ?_, ?_, ?_, ?_, ?_⟩
  · rw [RatTrig.spread_cons]
    split
    · simp_all
    · simp_all
  · have h44 : (4 : ℚ) * p_1 * p_2 = 4 * (p_1 * p_2) := by ring
    simp only [RatTrig.spread_law, h44]
    split
    · rename_i hz
      simp only [true_iff]
      linarith
    · rename_i hz
      simp only [reduceCtorEq, false_iff]
      intro hx
      exact hz (by rw [hx, mul_zero])
  · rw [RatTrig.spread_cons]
    norm_num
  · simp only [RatTrig.spread_law, RatTrig.archimedes]
    norm_num
  · rw [RatTrig.dot_cons]; rfl
  · rw [RatTrig.cross_cons]; rfl
  · rw [RatTrig.quad_cons]; rfl

/-- Witness for claim C6 at `v1 = (1,2)`, `v2 = (3,4)` (quadrances 5, 25)
and the arbitrary scalar triple `p_1 = -3`, `p_2 = 7`, `p_3 = 20`
(a negative first "quadrance", accepted without complaint). -/
theorem division_by_zero_spec_witness :
    (RatTrig.spread [(1 : ℚ), 2] [3, 4] = none ↔ (5 : ℚ) * 25 = 0) ∧
    (RatTrig.spread_law (-3 : ℚ) 7 20 = none ↔ (-3 : ℚ) * 7 = 0) ∧
    RatTrig.spread [(0 : ℚ), 0] [1, 1] = none ∧
    RatTrig.spread_law (0 : ℚ) 5 3 = none ∧
    (RatTrig.dot [(1 : ℚ), 2] [3, 4]).isSome = true ∧
    (RatTrig.cross [(1 : ℚ), 2] [3, 4]).isSome = true ∧
    (RatTrig.quad [(1 : ℚ), 2]).isSome = true :=
  division_by_zero_spec 1 2 3 4 5 25 (-3) 7 20
    (by rw [RatTrig.quad_cons]; norm_num)
    (by rw [RatTrig.quad_cons]; norm_num)

/-- Claim C7: Lagrange identity — for any pair of 2-vectors over an ordered
commutative domain, `dot(v1,v2)² + cross(v1,v2)² = quad(v1)·quad(v2)`. -/
theorem lagrange_identity {α : Type} [LinearOrderedCommRing α]
    (v_1 v_2 : List α) (dp cp q_1 q_2 : α)
    (hd : RatTrig.dot v_1 v_2 = some dp)
    (hc : RatTrig.cross v_1 v_2 = some cp)
    (h1 : RatTrig.quad v_1 = some q_1)
    (h2 : RatTrig.quad v_2 = some q_2) :
    dp ^ 2 + cp ^ 2 = q_1 * q_2 := by
  obtain ⟨a, b, t, rfl⟩ := RatTrig.exists_cons_cons_of_quad v_1 q_1 h1
  obtain ⟨c, d, s, rfl⟩ := RatTrig.exists_cons_cons_of_quad v_2 q_2 h2
  rw [RatTrig.dot_cons] at hd
  rw [RatTrig.cross_cons] at hc
  rw [RatTrig.quad_cons] at h1 h2
  obtain rfl := Option.some.inj hd
  obtain rfl := Option.some.inj hc
  obtain rfl := Option.some.inj h1
  obtain rfl := Option.some.inj h2
  ring

/-- Witness for claim C7 at `v1 = (1,2)`, `v2 = (3,4)` over `ℚ`:
`11² + (−2)² = 5·25`. -/
theorem lagrange_identity_witness : (11 : ℚ) ^ 2 + (-2 : ℚ) ^ 2 = 5 * 25 :=
  lagrange_identity [(1 : ℚ), 2] [3, 4] 11 (-2) 5 25
    (by rw [RatTrig.dot_cons]; norm_num)
    (by rw [RatTrig.cross_cons]; norm_num)
    (by rw [RatTrig.quad_cons]; norm_num)
    (by rw [RatTrig.quad_cons]; norm_num)

/-- Claim C8: for non-zero 2-vectors over the exact rational domain the
spread exists and lies in `[0, 1]`; the spread of a vector against a
non-zero scalar multiple of itself is `0`, and against its perpendicular
`perp((a,b)) = (−b, a)` it is `1`. -/
theorem spread_range (a b c d k : ℚ)
    (h1 : ¬(a = 0 ∧ b = 0)) (h2 : ¬(c = 0 ∧ d = 0)) (hk : k ≠ 0) :
    (∃ s, RatTrig.spread [a, b] [c, d] = some s ∧ 0 ≤ s ∧ s ≤ 1) ∧
    RatTrig.spread [a, b] [k * a, k * b] = some 0 ∧
    RatTrig.spread [a, b] [-b, a] = some 1 := by
  have hq1 : 0 < a * a + b * b := sq_sum_pos a b h1
  have hq2 : 0 < c * c + d * d := sq_sum_pos c d h2
  refine ⟨⟨(a * d - b * c) * (a * d - b * c) /
      ((a * a + b * b) * (c * c + d * d)), ?_, ?_, ?_⟩, ?_, ?_⟩
  · rw [RatTrig.spread_cons, if_neg (by positivity : ¬((a * a + b * b) *
      (c * c + d * d) = 0))]
  · exact div_nonneg (mul_self_nonneg _) (by positivity)
  · rw [div_le_one (by positivity)]
    nlinarith [sq_nonneg (a * c + b * d)]
  · have hps : 0 < (k * a) * (k * a) + (k * b) * (k * b) := by
      rcases not_and_or.mp h1 with ha | hb
      · nlinarith [mul_self_nonneg (k * b),
          mul_self_pos.mpr (mul_ne_zero hk ha)]
      · nlinarith [mul_self_nonneg (k * a),
          mul_self_pos.mpr (mul_ne_zero hk hb)]
    rw [RatTrig.spread_cons, if_neg (by positivity)]
    have hzero : a * (k * b) - b * (k * a) = 0 := by ring
    rw [hzero]
    norm_num
  · have hpp : 0 < (-b) * (-b) + a * a := by nlinarith
    rw [RatTrig.spread_cons, if_neg (by positivity)]
    congr 1
    rw [div_eq_one_iff_eq (by positivity)]
    ring

/-- Witness for claim C8 at `v1 = (1,2)`, `v2 = (3,4)`, `k = 2`. -/
theorem spread_range_witness :
    (∃ s, RatTrig.spread [(1 : ℚ), 2] [3, 4] = some s ∧ 0 ≤ s ∧ s ≤ 1) ∧
    RatTrig.spread [(1 : ℚ), 2] [2 * 1, 2 * 2] = some 0 ∧
    RatTrig.spread [(1 : ℚ), 2] [-2, 1] = some 1 :=
  spread_range 1 2 3 4 2 (by norm_num) (by norm_num) (by norm_num)

/-- Claim C10: `dot`, `cross`, `quad` and `spread` read only the first two
components of their sequence arguments — on sequences of length at least 2
they succeed (for `spread`, up to its own division), and appending further
components never changes the result. -/
theorem order_two_components_determine (v_1 v_2 w_1 w_2 : List ℚ)
    (h1 : 2 ≤ v_1.length) (h2 : 2 ≤ v_2.length) :
    RatTrig.dot (v_1 ++ w_1) (v_2 ++ w_2) = RatTrig.dot v_1 v_2 ∧
    (RatTrig.dot v_1 v_2).isSome = true ∧
    RatTrig.cross (v_1 ++ w_1) (v_2 ++ w_2) = RatTrig.cross v_1 v_2 ∧
    (RatTrig.cross v_1 v_2).isSome = true ∧
    RatTrig.quad (v_1 ++ w_1) = RatTrig.quad v_1 ∧
    (RatTrig.quad v_1).isSome = true ∧
    RatTrig.spread (v_1 ++ w_1) (v_2 ++ w_2) = RatTrig.spread v_1 v_2 := by
  obtain ⟨a, b, t, rfl⟩ := RatTrig.exists_cons_cons_of_len v_1 h1
  obtain ⟨c, d, s, rfl⟩ := RatTrig.exists_cons_cons_of_len v_2 h2
  exact ⟨rfl, rfl, rfl, rfl, rfl, rfl, rfl⟩

/-- Witness for claim C10 at `v1 = (1,2)`, `v2 = (3,4)`, appending `(5)`
and `(6,7)`. -/
theorem order_two_components_determine_witness :
    RatTrig.dot ([(1 : ℚ), 2] ++ [5]) ([3, 4] ++ [6, 7]) =
      RatTrig.dot [(1 : ℚ), 2] [3, 4] ∧
    (RatTrig.dot [(1 : ℚ), 2] [3, 4]).isSome = true ∧
    RatTrig.cross ([(1 : ℚ), 2] ++ [5]) ([3, 4] ++ [6, 7]) =
      RatTrig.cross [(1 : ℚ), 2] [3, 4] ∧
    (RatTrig.cross [(1 : ℚ), 2] [3, 4]).isSome = true ∧
    RatTrig.quad ([(1 : ℚ), 2] ++ [5]) = RatTrig.quad [(1 : ℚ), 2] ∧
    (RatTrig.quad [(1 : ℚ), 2]).isSome = true ∧
    RatTrig.spread ([(1 : ℚ), 2] ++ [5]) ([3, 4] ++ [6, 7]) =
      RatTrig.spread [(1 : ℚ), 2] [3, 4] :=
  order_two_components_determine [1, 2] [3, 4] [5] [6, 7]
    (by norm_num) (by norm_num)

/-! ### Exactness on the dynamic layer (claim C1) -/

theorem PyDyn.isExact_pyAdd (x y : PyNum) (hx : PyDyn.isExact x = true)
    (hy : PyDyn.isExact y = true) :
    PyDyn.isExact (PyDyn.pyAdd x y) = true := by
  cases x <;> cases y <;> simp_all [PyDyn.pyAdd, PyDyn.isExact]

theorem PyDyn.isExact_pySub (x y : PyNum) (hx : PyDyn.isExact x = true)
    (hy : PyDyn.isExact y = true) :
    PyDyn.isExact (PyDyn.pySub x y) = true := by
  cases x <;> cases y <;> simp_all [PyDyn.pySub, PyDyn.isExact]

theorem PyDyn.isExact_pyMul (x y : PyNum) (hx : PyDyn.isExact x = true)
    (hy : PyDyn.isExact y = true) :
    PyDyn.isExact (PyDyn.pyMul x y) = true := by
  cases x <;> cases y <;> simp_all [PyDyn.pyMul, PyDyn.isExact]

theorem PyDyn.archimedes_prat (q_1 q_2 q_3 : ℚ) :
    PyDyn.archimedes (.prat q_1) (.prat q_2) (.prat q_3) =
      .prat (RatTrig.archimedes q_1 q_2 q_3) := by
  simp [PyDyn.archimedes, RatTrig.archimedes, PyDyn.pyAdd, PyDyn.pySub,
    PyDyn.pyMul, PyDyn.toRat]

theorem PyDyn.triple_quad_formula_prat (q_1 q_2 s_3 : ℚ) :
    PyDyn.triple_quad_formula (.prat q_1) (.prat q_2) (.prat s_3) =
      .prat (RatTrig.triple_quad_formula q_1 q_2 s_3) := by
  simp [PyDyn.triple_quad_formula, RatTrig.triple_quad_formula, PyDyn.pyAdd,
    PyDyn.pySub, PyDyn.pyMul, PyDyn.toRat]

theorem PyDyn.dot_prat (a b c d : ℚ) :
    PyDyn.dot [.prat a, .prat b] [.prat c, .prat d] =
      (RatTrig.dot [a, b] [c, d]).map PyNum.prat := rfl

theorem PyDyn.cross_prat (a b c d : ℚ) :
    PyDyn.cross [.prat a, .prat b] [.prat c, .prat d] =
      (RatTrig.cross [a, b] [c, d]).map PyNum.prat := rfl

theorem PyDyn.quad_prat (a b : ℚ) :
    PyDyn.quad [.prat a, .prat b] =
      (RatTrig.quad [a, b]).map PyNum.prat := rfl

theorem PyDyn.spread_prat (a b c d : ℚ) :
    PyDyn.spread [.prat a, .prat b] [.prat c, .prat d] =
      (RatTrig.spread [a, b] [c, d]).map PyNum.prat := by
  simp only [PyDyn.spread, PyDyn.cross, PyDyn.quad, RatTrig.spread_cons,
    List.get?, Option.bind_eq_bind, Option.some_bind, PyDyn.pyMul,
    PyDyn.pySub, PyDyn.pyAdd, PyDyn.pyDiv, PyDyn.toRat]
  split <;> simp_all

theorem PyDyn.spread_law_prat (q_1 q_2 q_3 : ℚ) :
    PyDyn.spread_law (.prat q_1) (.prat q_2) (.prat q_3) =
      (RatTrig.spread_law q_1 q_2 q_3).map PyNum.prat := by
  have h4 : PyDyn.pyMul (PyDyn.pyMul (.pint 4) (.prat q_1)) (.prat q_2) =
      .prat (4 * q_1 * q_2) := by
    simp [PyDyn.pyMul, PyDyn.toRat]
  simp only [PyDyn.spread_law, h4, PyDyn.archimedes_prat]
  simp only [PyDyn.pyDiv, PyDyn.toRat, RatTrig.spread_law]
  split <;> simp_all

/-- Claim C1 counterexample: `spread_law` applied to the exact integer
inputs `5, 25, 20` (the source's own doctest) returns the float `0.8`
(Python true division of two `int`s), not an element of an exact domain. -/
theorem exactness_counterexample :
    PyDyn.isExact (.pint 5) = true ∧
    PyDyn.isExact (.pint 25) = true ∧
    PyDyn.isExact (.pint 20) = true ∧
    PyDyn.spread_law (.pint 5) (.pint 25) (.pint 20) =
      some (.pfloat (4 / 5)) ∧
    PyDyn.isExact (.pfloat (4 / 5)) = false := by
  refine ⟨rfl, rfl, rfl, ?_, rfl⟩
  simp [PyDyn.spread_law, PyDyn.archimedes, PyDyn.pyAdd, PyDyn.pySub,
    PyDyn.pyMul, PyDyn.pyDiv, PyDyn.toRat]
  norm_num

/-- Claim C1 as amended: exactness is preserved end-to-end on the exact
rational domain — all seven operations on `Fraction` inputs return
`Fraction` results agreeing with the exact rational semantics — and the
five operations that never divide (`dot`, `cross`, `quad`, `archimedes`,
`triple_quad_formula`) preserve exactness on any exact inputs, integers
included.  (On integer inputs `spread` and `spread_law` return floats:
see the counterexample.) -/
theorem exactness_amended (q_1 q_2 q_3 s_3 a b c d : ℚ) (w x y z : PyNum)
    (hw : PyDyn.isExact w = true) (hx : PyDyn.isExact x = true)
    (hy : PyDyn.isExact y = true) (hz : PyDyn.isExact z = true) :
    PyDyn.isExact (PyDyn.archimedes w x y) = true ∧
    PyDyn.isExact (PyDyn.triple_quad_formula w x y) = true ∧
    (∀ r, PyDyn.dot [w, x] [y, z] = some r →
      PyDyn.isExact r = true) ∧
    (∀ r, PyDyn.cross [w, x] [y, z] = some r →
      PyDyn.isExact r = true) ∧
    (∀ r, PyDyn.quad [w, x] = some r → PyDyn.isExact r = true) ∧
    PyDyn.archimedes (.prat q_1) (.prat q_2) (.prat q_3) =
      .prat (RatTrig.archimedes q_1 q_2 q_3) ∧
    PyDyn.triple_quad_formula (.prat q_1) (.prat q_2) (.prat s_3) =
      .prat (RatTrig.triple_quad_formula q_1 q_2 s_3) ∧
    PyDyn.dot [.prat a, .prat b] [.prat c, .prat d] =
      (RatTrig.dot [a, b] [c, d]).map PyNum.prat ∧
    PyDyn.cross [.prat a, .prat b] [.prat c, .prat d] =
      (RatTrig.cross [a, b] [c, d]).map PyNum.prat ∧
    PyDyn.quad [.prat a, .prat b] =
      (RatTrig.quad [a, b]).map PyNum.prat ∧
    PyDyn.spread [.prat a, .prat b] [.prat c, .prat d] =
      (RatTrig.spread [a, b] [c, d]).map PyNum.prat ∧
    PyDyn.spread_law (.prat q_1) (.prat q_2) (.prat q_3) =
      (RatTrig.spread_law q_1 q_2 q_3).map PyNum.prat := by
  have h4 : PyDyn.isExact (.pint 4) = true := rfl
  have htemp : PyDyn.isExact (PyDyn.pySub (PyDyn.pyAdd w x) y) = true :=
    PyDyn.isExact_pySub _ _ (PyDyn.isExact_pyAdd _ _ hw hx) hy
  refine ⟨?_, ?_, ?_, ?_, ?_, PyDyn.archimedes_prat q_1 q_2 q_3,
    PyDyn.triple_quad_formula_prat q_1 q_2 s_3, PyDyn.dot_prat a b c d,
    PyDyn.cross_prat a b c d, PyDyn.quad_prat a b,
    PyDyn.spread_prat a b c d, PyDyn.spread_law_prat q_1 q_2 q_3⟩
  · exact PyDyn.isExact_pySub _ _
      (PyDyn.isExact_pyMul _ _ (PyDyn.isExact_pyMul _ _ h4 hw) hx)
      (PyDyn.isExact_pyMul _ _ htemp htemp)
  · exact PyDyn.isExact_pySub _ _
      (PyDyn.isExact_pyMul _ _ (PyDyn.isExact_pyAdd _ _ hw hx)
        (PyDyn.isExact_pyAdd _ _ hw hx))
      (PyDyn.isExact_pyMul _ _
        (PyDyn.isExact_pyMul _ _ (PyDyn.isExact_pyMul _ _ h4 hw) hx)
        (PyDyn.isExact_pySub _ _ rfl hy))
  · intro r hr
    obtain rfl := Option.some.inj hr
    exact PyDyn.isExact_pyAdd _ _ (PyDyn.isExact_pyMul _ _ hw hy)
      (PyDyn.isExact_pyMul _ _ hx hz)
  · intro r hr
    obtain rfl := Option.some.inj hr
    exact PyDyn.isExact_pySub _ _ (PyDyn.isExact_pyMul _ _ hw hz)
      (PyDyn.isExact_pyMul _ _ hx hy)
  · intro r hr
    obtain rfl := Option.some.inj hr
    exact PyDyn.isExact_pyAdd _ _ (PyDyn.isExact_pyMul _ _ hw hw)
      (PyDyn.isExact_pyMul _ _ hx hx)

/-- Witness for the amended claim C1, at mixed exact inputs
`w = 1 (int)`, `x = 2 (int)`, `y = 1/2 (Fraction)`, `z = 3 (int)` and
rational arguments `1/2, 1/3, 1/5, 1/7` and vector `(1,2), (3,4)`. -/
theorem exactness_amended_witness :
    PyDyn.isExact (PyDyn.archimedes (.pint 1) (.pint 2)
      (.prat (1 / 2))) = true ∧
    PyDyn.isExact (PyDyn.triple_quad_formula (.pint 1) (.pint 2)
      (.prat (1 / 2))) = true ∧
    (∀ r, PyDyn.dot [.pint 1, .pint 2] [.prat (1 / 2), .pint 3] = some r →
      PyDyn.isExact r = true) ∧
    (∀ r, PyDyn.cross [.pint 1, .pint 2] [.prat (1 / 2), .pint 3] =
      some r → PyDyn.isExact r = true) ∧
    (∀ r, PyDyn.quad [.pint 1, .pint 2] = some r →
      PyDyn.isExact r = true) ∧
    PyDyn.archimedes (.prat (1 / 2)) (.prat (1 / 3)) (.prat (1 / 5)) =
      .prat (RatTrig.archimedes (1 / 2) (1 / 3) (1 / 5)) ∧
    PyDyn.triple_quad_formula (.prat (1 / 2)) (.prat (1 / 3))
      (.prat (1 / 7)) =
      .prat (RatTrig.triple_quad_formula (1 / 2) (1 / 3) (1 / 7)) ∧
    PyDyn.dot [.prat 1, .prat 2] [.prat 3, .prat 4] =
      (RatTrig.dot [1, 2] [3, 4]).map PyNum.prat ∧
    PyDyn.cross [.prat 1, .prat 2] [.prat 3, .prat 4] =
      (RatTrig.cross [1, 2] [3, 4]).map PyNum.prat ∧
    PyDyn.quad [.prat 1, .prat 2] =
      (RatTrig.quad [1, 2]).map PyNum.prat ∧
    PyDyn.spread [.prat 1, .prat 2] [.prat 3, .prat 4] =
      (RatTrig.spread [1, 2] [3, 4]).map PyNum.prat ∧
    PyDyn.spread_law (.prat (1 / 2)) (.prat (1 / 3)) (.prat (1 / 5)) =
      (RatTrig.spread_law (1 / 2) (1 / 3) (1 / 5)).map PyNum.prat :=
  exactness_amended (1 / 2) (1 / 3) (1 / 5) (1 / 7) 1 2 3 4
    (.pint 1) (.pint 2) (.prat (1 / 2)) (.pint 3) rfl rfl rfl rfl
